import Mathlib

/-!
Verification of the printer-backend order lifecycle and reclamation engine.

The development shallowly embeds the JavaScript sources:
* `src/order.js` — `calculateCost`, `createOrder`;
* `src/cleanup.js` (second iteration) — `cleanupOrder`, `performCleanup`
  with the shared-asset guard;
* `src/index.js` — the `/verify-pickup-code` and `/mark-printed` handlers
  and the payment-activation update;
* `src/unnamed/part_000` — the archive-style `cleanupOrder` that moves an
  order to `EXPIRED`.

JavaScript values are modelled as follows: nullable / possibly-absent
fields become `Option`, millisecond timestamps become `Int`, the Firestore
`orders` collection becomes an association list keyed by document id, and
the Cloudinary object store becomes the list of currently stored public
ids.  A falsy numeric field (`x || 1` in JS) is `none` or `some 0`.
-/

namespace PrinterBackend

/-- One entry of `printSettings.files` as consumed by `order.js`.
`pageCount`/`copies` are `none` when the key is absent; `some 0` models a
present-but-falsy value (JS treats both the same under `|| 1`). -/
structure PrintFile where
  color : Option String
  pageCount : Option Nat
  copies : Option Nat
  url : Option String
  publicId : Option String
deriving DecidableEq, Repr

/-- The `printSettings` object: `files` is `none` when the `files` key is
absent or not an array (`!printSettings.files || !Array.isArray(...)`). -/
structure PrintSettings where
  files : Option (List PrintFile)
deriving DecidableEq, Repr

/-- JS `x || 1` for an optional numeric field: absent or `0` yields `1`. -/
def jsOr1 : Option Nat → Nat
  | none => 1
  | some 0 => 1
  | some n => n

/-- Function `calculateCost` from `src/order.js` lines 17–28: fold over the files,
adding `(file.color === "COLOR" ? 10 : 3) * (file.pageCount || 1) *
(file.copies || 1)`; returns `0` when there is no files array. -/
def calculateCost (ps : PrintSettings) : Nat :=
  match ps.files with
  | none => 0
  | some fs =>
    fs.foldl
      (fun total f =>
        total + (if f.color = some "COLOR" then 10 else 3) * jsOr1 f.pageCount * jsOr1 f.copies)
      0

/-- The billing rule exactly as claim C10 words it: unit price 10 for the
exact string `COLOR` and 3 otherwise, missing or falsy page counts and
copies billed as 1, and no files array giving amount 0.  Stated separately
from `calculateCost` so that the two can be compared. -/
def claimedAmount (ps : PrintSettings) : Nat :=
  match ps.files with
  | none => 0
  | some fs =>
    (fs.map (fun f =>
      (if f.color = some "COLOR" then 10 else 3) * jsOr1 f.pageCount * jsOr1 f.copies)).sum

theorem foldl_add_eq_sum (g : PrintFile → Nat) (fs : List PrintFile) (a : Nat) :
    fs.foldl (fun total f => total + g f) a = a + (fs.map g).sum := by
  induction fs generalizing a with
  | nil => simp
  | cons f rest ih => simp [List.foldl_cons, ih, Nat.add_assoc]

theorem calculateCost_eq_claimedAmount (ps : PrintSettings) :
    calculateCost ps = claimedAmount ps := by
  unfold calculateCost claimedAmount
  cases ps.files with
  | none => rfl
  | some fs => simpa using foldl_add_eq_sum _ fs 0

/-! ## Data model: order documents, the Firestore collection, the object store -/

/-- One Firestore order document, with the fields read or written by
`order.js`, `cleanup.js` and the `index.js` handlers.  Optional fields are
`none` when the document does not carry them. -/
structure OrderRecord where
  orderId : String
  printSettings : PrintSettings
  amount : Nat
  totalPages : Nat
  paymentStatus : String
  status : String
  printStatus : String
  printedAt : Option Int
  createdAt : Int
  expiresAt : Option Int
  fileUrls : List String
  publicIds : List String
  razorpayOrderId : Option String
  razorpayPaymentId : Option String
  userId : Option String
  pickupCode : Option String
  cleanupStatus : Option String
  cleanedAt : Option Int
deriving DecidableEq, Repr

/-- The shared mutable state: the `orders` collection (document id paired
with document data) and the Cloudinary object store, modelled as the list
of public ids currently stored. -/
structure Store where
  orders : List (String × OrderRecord)
  assets : List String
deriving DecidableEq, Repr

/-- Firestore point lookup `db.collection("orders").doc(id).get()`. -/
def dbGet (orders : List (String × OrderRecord)) (orderId : String) : Option OrderRecord :=
  (orders.find? (fun kv => decide (kv.1 = orderId))).map Prod.snd

/-- Firestore partial update `db.collection("orders").doc(id).update(patch)`:
merge the patched fields into the document with the given id. -/
def dbUpdate (orders : List (String × OrderRecord)) (orderId : String)
    (patch : OrderRecord → OrderRecord) : List (String × OrderRecord) :=
  orders.map (fun kv => if kv.1 = orderId then (kv.1, patch kv.2) else kv)

/-- TTL used by `createOrder`: `24 * 60 * 60 * 1000` ms (24 hours). -/
def TTL_MS : Int := 24 * 60 * 60 * 1000

/-- Age threshold of the cleanup sweep in `cleanup.js`:
`12 * 60 * 60 * 1000` ms (12 hours). -/
def CLEANUP_AGE_MS : Int := 12 * 60 * 60 * 1000

/-! ## Reclamation engine (`src/cleanup.js`, second iteration) -/

/-- Size of the result of the sharing query
`where("publicIds", "array-contains", pid).limit(2)`: the number of order
documents whose `publicIds` contains `pid`, capped at 2 by the limit. -/
def sharingQuerySize (orders : List (String × OrderRecord)) (pid : String) : Nat :=
  min ((orders.filter (fun kv => decide (pid ∈ kv.2.publicIds))).length) 2

/-- The `toDeleteIds` accumulation in `cleanupOrder` (`cleanup.js` lines
151–169): a public id is kept for deletion iff the sharing query finds at
most one referencing order (only the order being reclaimed itself). -/
def toDeleteIds (orders : List (String × OrderRecord)) (publicIds : List String) : List String :=
  publicIds.filter (fun pid => decide (sharingQuerySize orders pid ≤ 1))

/-- Cloudinary `delete_resources`: remove the given ids from the object
store.  Deleting an id that is not stored is a success that changes
nothing (Cloudinary reports it as `not found` without erroring). -/
def objectStoreDelete (assets : List String) (ids : List String) : List String :=
  assets.filter (fun a => decide (a ∉ ids))

/-- The `keepMetadata` update of `cleanupOrder` (`cleanup.js` lines
187–194): clear `fileUrls` and `publicIds`, record the cleanup. -/
def clearFilesPatch (d : OrderRecord) (now : Int) : OrderRecord :=
  { d with fileUrls := [], publicIds := [],
           cleanupStatus := some "CLEANED", cleanedAt := some now }

/-- Function `cleanupOrder(orderId, orderData, keepMetadata)` from `src/cleanup.js`
lines 144–203: for each public id of the order, consult the sharing query
and delete the unshared ids from Cloudinary; then either clear the
file-related fields of the document (`keepMetadata = true`) or delete the
document (`keepMetadata = false`, the default). -/
def cleanupOrder (s : Store) (orderId : String) (orderData : OrderRecord)
    (keepMetadata : Bool) (now : Int) : Store :=
  let assets := objectStoreDelete s.assets (toDeleteIds s.orders orderData.publicIds)
  if keepMetadata then
    { orders := dbUpdate s.orders orderId (fun d => clearFilesPatch d now),
      assets := assets }
  else
    { orders := s.orders.filter (fun kv => decide (kv.1 ≠ orderId)),
      assets := assets }

/-- The candidate query of `performCleanup` (`cleanup.js` lines 107–111):
`where("createdAt", "<=", new Date(Date.now() - 12h))` — no status
predicate at all. -/
def cleanupCandidates (orders : List (String × OrderRecord)) (now : Int) :
    List (String × OrderRecord) :=
  orders.filter (fun kv => decide (kv.2.createdAt ≤ now - CLEANUP_AGE_MS))

/-- Function `performCleanup` from `src/cleanup.js` lines 101–139: snapshot the
candidates, then run `cleanupOrder(doc.id, doc.data())` on each in order
(with the default `keepMetadata = false`). -/
def performCleanup (s : Store) (now : Int) : Store :=
  (cleanupCandidates s.orders now).foldl
    (fun st d => cleanupOrder st d.1 d.2 false now) s

/-- The archive update of `cleanupOrder` from `src/unnamed/part_000`
lines 62–68: set status `EXPIRED`, clear `fileUrls`/`publicIds`, revoke
the pickup code, record the cleanup time. -/
def expireArchivePatch (d : OrderRecord) (now : Int) : OrderRecord :=
  { d with status := "EXPIRED", fileUrls := [], publicIds := [],
           pickupCode := none, cleanedAt := some now }

/-- Function `cleanupOrder` from `src/unnamed/part_000` lines 51–74: delete all of
the order's public ids from Cloudinary unconditionally, then archive the
document in place. -/
def cleanupOrderArchive (s : Store) (orderId : String) (orderData : OrderRecord)
    (now : Int) : Store :=
  { orders := dbUpdate s.orders orderId (fun d => expireArchivePatch d now),
    assets := objectStoreDelete s.assets orderData.publicIds }

/-! ## `/verify-pickup-code` (`src/index.js` lines 1126–1201) -/

/-- Outcome of the `/verify-pickup-code` handler. -/
inductive VerifyResult where
  | badRequest
  | notFound
  | alreadyPrinted
  | expired
  | noAssets
  | ok (orderId : String) (fileUrls : List String)
deriving DecidableEq, Repr

/-- The lookup query of the handler:
`where("pickupCode", "==", code).where("status", "==", "ACTIVE").limit(1)`. -/
def findActiveByCode (orders : List (String × OrderRecord)) (code : String) :
    Option (String × OrderRecord) :=
  orders.find? (fun kv => decide (kv.2.pickupCode = some code ∧ kv.2.status = "ACTIVE"))

/-- The expiry guard `orderData.expiresAt?.toDate() < new Date()`:
false when `expiresAt` is absent. -/
def jsExpired (expiresAt : Option Int) (now : Int) : Bool :=
  match expiresAt with
  | none => false
  | some t => decide (t < now)

/-- The `/verify-pickup-code` handler from `src/index.js` lines
1126–1201: missing code → 400; no ACTIVE order holding the code → 404;
`printStatus === "PRINTED"` → already printed; expiry guard; empty
`fileUrls` → no files; otherwise success with the order's data.  The
handler performs no write at all. -/
def verifyPickupCode (s : Store) (now : Int) (code : Option String) : VerifyResult :=
  match code with
  | none => .badRequest
  | some c =>
    match findActiveByCode s.orders c with
    | none => .notFound
    | some (oid, data) =>
      if data.printStatus = "PRINTED" then .alreadyPrinted
      else if jsExpired data.expiresAt now then .expired
      else if data.fileUrls = [] then .noAssets
      else .ok oid data.fileUrls

/-- Endpoint `/verify-pickup-code` as an operation on the store: the handler only
reads, so the store comes back unchanged. -/
def redeemPickupCode (s : Store) (now : Int) (code : Option String) :
    VerifyResult × Store :=
  (verifyPickupCode s now code, s)

/-- Outcome of the transactional `/verify-pickup-code` variant. -/
inductive LockResult where
  | notFound
  | invalidStatus
  | ok (orderId : String)
deriving DecidableEq, Repr

/-- The `tx.update(ref, { printStatus: "PRINTING" })` write of the lock
transaction (`src/index.js` line 415). -/
def lockPatch (d : OrderRecord) : OrderRecord :=
  { d with printStatus := "PRINTING" }

/-- The transactional `/verify-pickup-code` variant from `src/index.js`
lines 371–445 (transaction at 403–416): look the order up by pickup code
alone, reject only a falsy `printStatus`, otherwise log that a reprint is
allowed, set `printStatus := "PRINTING"` and succeed.  The empty string
stands for a falsy (missing) `printStatus`. -/
def verifyPickupCodeLock (s : Store) (code : String) : LockResult × Store :=
  match s.orders.find? (fun kv => decide (kv.2.pickupCode = some code)) with
  | none => (.notFound, s)
  | some (oid, data) =>
    if data.printStatus = "" then (.invalidStatus, s)
    else
      (.ok data.orderId, { s with orders := dbUpdate s.orders oid lockPatch })

/-! ## `/mark-printed` (`src/index.js` lines 1208–1247) -/

/-- Outcome of the `/mark-printed` handler. -/
inductive MarkResult where
  | notFound
  | success
deriving DecidableEq, Repr

/-- The unconditional update of `/mark-printed` (`src/index.js` lines
1223–1228): status `COMPLETED`, printStatus `PRINTED`, record `printedAt`,
revoke the pickup code. -/
def markPrintedPatch (d : OrderRecord) (now : Int) : OrderRecord :=
  { d with status := "COMPLETED", printStatus := "PRINTED",
           printedAt := some now, pickupCode := none }

/-- The legacy `/mark-printed` update from `src/index.js` lines 213–219
(lower-case status strings). -/
def markPrintedPatchLegacy (d : OrderRecord) (now : Int) : OrderRecord :=
  { d with status := "completed", printStatus := "printed",
           printedAt := some now, pickupCode := none }

/-- The `/mark-printed` handler from `src/index.js` lines 1208–1247:
updating a missing document raises Firestore error code 5, answered as
404; otherwise the update is applied with no guard on the current status,
the document is re-read and `cleanupOrder` runs on the fresh data with the
default `keepMetadata = false`. -/
def markPrinted (s : Store) (now : Int) (orderId : String) : MarkResult × Store :=
  match dbGet s.orders orderId with
  | none => (.notFound, s)
  | some _ =>
    let s1 : Store :=
      { s with orders := dbUpdate s.orders orderId (fun d => markPrintedPatch d now) }
    match dbGet s1.orders orderId with
    | none => (.success, s1)
    | some fresh => (.success, cleanupOrder s1 orderId fresh false now)

/-! ## `createOrder` (`src/order.js` lines 55–101) -/

/-- Outcome of `createOrder`: the thrown `Invalid printSettings` error or
the created document together with the returned fields. -/
inductive CreateResult where
  | validationError
  | created (record : OrderRecord) (returnedPickupCode : Option String) (returnedAmount : Nat)
deriving DecidableEq, Repr

/-- The `totalPages` fallback of `createOrder` (line 72):
`files.reduce((sum, f) => sum + (f.pageCount || 1) * (f.copies || 1), 0)`,
or `0` without a files array. -/
def jsTotalPages (ps : PrintSettings) : Nat :=
  match ps.files with
  | none => 0
  | some fs => fs.foldl (fun sum f => sum + jsOr1 f.pageCount * jsOr1 f.copies) 0

/-- Field `fileUrls` computed at creation (line 79): the defined `url` fields. -/
def creationFileUrls (ps : PrintSettings) : List String :=
  match ps.files with
  | none => []
  | some fs => fs.filterMap (fun f => f.url)

/-- Field `publicIds` computed at creation (line 80): the truthy `publicId`
fields (the filter `id && id !== undefined` also drops an empty string). -/
def creationPublicIds (ps : PrintSettings) : List String :=
  match ps.files with
  | none => []
  | some fs =>
    fs.filterMap (fun f =>
      match f.publicId with
      | none => none
      | some p => if p = "" then none else some p)

/-- Function `createOrder(printSettings, razorpayOrderId, amount, totalPages)` from
`src/order.js` lines 55–101.  The only validation is
`!printSettings || typeof printSettings !== "object"`, modelled by the
`Option` on `printSettings`.  `amount` and `totalPages` default to their
computed values when the passed value is falsy (`0`).  With a
`razorpayOrderId` the order starts `CREATED`/`PENDING` without a pickup
code; without one it starts `ACTIVE`/`PAID` and gets the freshly
generated unique code. -/
def createOrder (printSettings : Option PrintSettings) (razorpayOrderId : Option String)
    (amount totalPages : Nat) (now : Int) (orderId freshCode : String) : CreateResult :=
  match printSettings with
  | none => .validationError
  | some ps =>
    let finalAmount := if amount = 0 then calculateCost ps else amount
    let record : OrderRecord :=
      { orderId := orderId
        printSettings := ps
        amount := finalAmount
        totalPages := if totalPages = 0 then jsTotalPages ps else totalPages
        paymentStatus := if razorpayOrderId.isSome then "PENDING" else "PAID"
        status := if razorpayOrderId.isSome then "CREATED" else "ACTIVE"
        printStatus := "pending"
        printedAt := none
        createdAt := now
        expiresAt := some (now + TTL_MS)
        fileUrls := creationFileUrls ps
        publicIds := creationPublicIds ps
        razorpayOrderId := razorpayOrderId
        razorpayPaymentId := none
        userId := none
        pickupCode := if razorpayOrderId.isSome then none else some freshCode
        cleanupStatus := none
        cleanedAt := none }
    .created record record.pickupCode finalAmount

/-- Function `createOrder` as an operation on the store: on success the document is
written under its (fresh) id via `db.collection("orders").doc(orderId).set`. -/
def createOrderDb (s : Store) (printSettings : Option PrintSettings)
    (razorpayOrderId : Option String) (amount totalPages : Nat) (now : Int)
    (orderId freshCode : String) : CreateResult × Store :=
  match createOrder printSettings razorpayOrderId amount totalPages now orderId freshCode with
  | .validationError => (.validationError, s)
  | .created r c a => (.created r c a, { s with orders := s.orders ++ [(orderId, r)] })

/-- The payment-activation update of `/verify-payment` (`src/index.js`
lines 795–801): set the user, the payment reference, `paymentStatus`
`PAID`, status `ACTIVE` and assign the freshly generated pickup code. -/
def activatePaymentPatch (d : OrderRecord) (userId : Option String)
    (paymentId freshCode : String) : OrderRecord :=
  { d with userId := some (match userId with
                           | none => "guest"
                           | some u => if u = "" then "guest" else u),
           razorpayPaymentId := some paymentId,
           paymentStatus := "PAID", status := "ACTIVE",
           pickupCode := some freshCode }

/-- The pickup-code invariant of claim C8: the code is present exactly on
orders whose status is `ACTIVE` or `PRINTING`. -/
def pickupCodeInv (d : OrderRecord) : Prop :=
  d.pickupCode ≠ none ↔ (d.status = "ACTIVE" ∨ d.status = "PRINTING")

instance (d : OrderRecord) : Decidable (pickupCodeInv d) := by
  unfold pickupCodeInv; infer_instance

/-! ## Concrete instances used by witnesses and counterexamples -/

/-- A base ACTIVE order document holding the pickup code `123456` and one
stored asset `p`. -/
def recActive : OrderRecord :=
  { orderId := "A", printSettings := { files := none }, amount := 38, totalPages := 8,
    paymentStatus := "PAID", status := "ACTIVE", printStatus := "pending",
    printedAt := none, createdAt := 0, expiresAt := some TTL_MS,
    fileUrls := ["uA"], publicIds := ["p"],
    razorpayOrderId := none, razorpayPaymentId := none, userId := none,
    pickupCode := some "123456", cleanupStatus := none, cleanedAt := none }

/-- A second ACTIVE order sharing the asset `p` with `recActive`. -/
def recShared : OrderRecord :=
  { recActive with orderId := "B", pickupCode := some "654321", fileUrls := ["uB"] }

/-- An already-completed order (as left behind by the `keepMetadata`
variant of `/mark-printed`) that still lists asset `p`. -/
def recCompleted : OrderRecord :=
  { recActive with status := "COMPLETED", printStatus := "PRINTED", pickupCode := none }

/-- An ACTIVE order whose `printStatus` says it is currently printing. -/
def recPrinting : OrderRecord :=
  { recActive with printStatus := "PRINTING" }

/-- Store holding the two sharing orders `A` and `B` and the asset `p`. -/
def storeAB : Store :=
  { orders := [("A", recActive), ("B", recShared)], assets := ["p"] }

/-- Store holding only the ACTIVE order `A` and its asset. -/
def storeA : Store :=
  { orders := [("A", recActive)], assets := ["p"] }

/-- Store holding only the completed order `A` and its asset. -/
def storeDone : Store :=
  { orders := [("A", recCompleted)], assets := ["p"] }

/-- The files of the worked pricing example of the specification. -/
def exampleFiles : List PrintFile :=
  [ { color := some "COLOR", pageCount := some 2, copies := some 1, url := none, publicId := none },
    { color := some "BW", pageCount := some 3, copies := some 2, url := none, publicId := none } ]

/-- The `printSettings` of the worked pricing example. -/
def exampleSettings : PrintSettings :=
  { files := some exampleFiles }

/-! ## General lemmas about the embedded operations -/

theorem mem_objectStoreDelete {assets ids : List String} {a : String} :
    a ∈ objectStoreDelete assets ids ↔ a ∈ assets ∧ a ∉ ids := by
  simp [objectStoreDelete, List.mem_filter]

theorem mem_toDeleteIds {orders : List (String × OrderRecord)} {pids : List String}
    {pid : String} :
    pid ∈ toDeleteIds orders pids ↔
      pid ∈ pids ∧
        (orders.filter (fun kv => decide (pid ∈ kv.2.publicIds))).length ≤ 1 := by
  simp only [toDeleteIds, List.mem_filter, decide_eq_true_iff, sharingQuerySize]
  constructor
  · rintro ⟨h1, h2⟩
    exact ⟨h1, by omega⟩
  · rintro ⟨h1, h2⟩
    exact ⟨h1, by omega⟩

/-- Both branches of `cleanupOrder` perform the same asset deletion. -/
theorem cleanupOrder_assets (s : Store) (orderId : String) (orderData : OrderRecord)
    (keepMetadata : Bool) (now : Int) :
    (cleanupOrder s orderId orderData keepMetadata now).assets =
      objectStoreDelete s.assets (toDeleteIds s.orders orderData.publicIds) := by
  cases keepMetadata <;> rfl

theorem cleanupOrder_orders_delete (s : Store) (orderId : String) (orderData : OrderRecord)
    (now : Int) :
    (cleanupOrder s orderId orderData false now).orders =
      s.orders.filter (fun kv => decide (kv.1 ≠ orderId)) := rfl

/-- Two distinct members force length at least two. -/
theorem two_le_length_of_mem_ne {l : List (String × OrderRecord)}
    {a b : String × OrderRecord} (ha : a ∈ l) (hb : b ∈ l) (hab : a ≠ b) :
    2 ≤ l.length := by
  induction l with
  | nil => cases ha
  | cons x xs ih =>
    rcases List.mem_cons.1 ha with rfl | ha2
    · rcases List.mem_cons.1 hb with rfl | hb2
      · exact absurd rfl hab
      · have := List.length_pos_of_mem hb2
        simp only [List.length_cons]; omega
    · have := List.length_pos_of_mem ha2
      simp only [List.length_cons]; omega

/-- In an association list with no duplicate keys, equal keys force equal
entries. -/
theorem eq_of_keyNodup {l : List (String × OrderRecord)}
    (h : (l.map Prod.fst).Nodup) {a b : String × OrderRecord}
    (ha : a ∈ l) (hb : b ∈ l) (hab : a.1 = b.1) : a = b := by
  induction l with
  | nil => cases ha
  | cons x xs ih =>
    simp only [List.map_cons, List.nodup_cons] at h
    rcases List.mem_cons.1 ha with rfl | ha2
    · rcases List.mem_cons.1 hb with rfl | hb2
      · rfl
      · exact absurd (hab ▸ List.mem_map_of_mem Prod.fst hb2) h.1
    · rcases List.mem_cons.1 hb with rfl | hb2
      · exact absurd (hab ▸ List.mem_map_of_mem Prod.fst ha2) h.1
      · exact ih h.2 ha2 hb2

/-- A duplicate-free list whose members all equal one value has length at
most one. -/
theorem length_le_one_of_nodup_all_eq {l : List (String × OrderRecord)}
    (hnd : l.Nodup) {x : String × OrderRecord} (h : ∀ y ∈ l, y = x) :
    l.length ≤ 1 := by
  cases l with
  | nil => simp
  | cons y ys =>
    have hy : y = x := h y (List.mem_cons_self y ys)
    cases ys with
    | nil => simp
    | cons z zs =>
      have hz : z = x := h z (List.mem_cons.2 (Or.inr (List.mem_cons_self z zs)))
      rw [List.nodup_cons] at hnd
      exact absurd (by rw [hy, ← hz]; exact List.mem_cons_self z zs) hnd.1

theorem mem_dbUpdate {orders : List (String × OrderRecord)} {orderId : String}
    {patch : OrderRecord → OrderRecord} {kv : String × OrderRecord} :
    kv ∈ dbUpdate orders orderId patch ↔
      ∃ kw ∈ orders, kv = if kw.1 = orderId then (kw.1, patch kw.2) else kw := by
  simp only [dbUpdate, List.mem_map]
  constructor
  · rintro ⟨kw, hkw, rfl⟩; exact ⟨kw, hkw, rfl⟩
  · rintro ⟨kw, hkw, rfl⟩; exact ⟨kw, hkw, rfl⟩

theorem dbGet_dbUpdate (orders : List (String × OrderRecord)) (orderId : String)
    (patch : OrderRecord → OrderRecord) :
    dbGet (dbUpdate orders orderId patch) orderId =
      (dbGet orders orderId).map patch := by
  induction orders with
  | nil => rfl
  | cons kv rest ih =>
    by_cases h : kv.1 = orderId
    · simp [dbGet, dbUpdate, List.find?_cons, h]
    · simpa [dbGet, dbUpdate, List.find?_cons, h] using ih

/-! ## Claim C1 — the shared-asset guard of reclamation -/

/-- Claim C1: during reclamation of an order, a public id listed by the
order is deleted from the object store exactly when no other order
currently lists it; and an asset shared with a second order survives the
first order's reclamation and is deleted by the second order's
reclamation once no third order lists it. -/
theorem cleanupOrder_shared_asset_guard (s : Store) (orderId : String)
    (orderData : OrderRecord) (keepMetadata : Bool) (now : Int) (pid : String)
    (hkeys : (s.orders.map Prod.fst).Nodup)
    (hmem : (orderId, orderData) ∈ s.orders)
    (hpid : pid ∈ orderData.publicIds)
    (hasset : pid ∈ s.assets) :
    (pid ∉ (cleanupOrder s orderId orderData keepMetadata now).assets ↔
      ∀ kv ∈ s.orders, kv.1 ≠ orderId → pid ∉ kv.2.publicIds) ∧
    (∀ oidB dB, (oidB, dB) ∈ s.orders → oidB ≠ orderId → pid ∈ dB.publicIds →
      pid ∈ (cleanupOrder s orderId orderData false now).assets ∧
      ((∀ kv ∈ s.orders, pid ∈ kv.2.publicIds → kv.1 = orderId ∨ kv.1 = oidB) →
        pid ∉ (cleanupOrder (cleanupOrder s orderId orderData false now)
                oidB dB false now).assets)) := by
  have hndOrders : s.orders.Nodup := List.Nodup.of_map Prod.fst hkeys
  have hmemF : (orderId, orderData) ∈
      s.orders.filter (fun kv => decide (pid ∈ kv.2.publicIds)) :=
    List.mem_filter.2 ⟨hmem, by simpa using hpid⟩
  have hkey : pid ∉ objectStoreDelete s.assets (toDeleteIds s.orders orderData.publicIds) ↔
      pid ∈ toDeleteIds s.orders orderData.publicIds := by
    simp [mem_objectStoreDelete, hasset]
  constructor
  · rw [cleanupOrder_assets, hkey, mem_toDeleteIds]
    simp only [hpid, true_and]
    constructor
    · intro hle kv hkv hne hkvpid
      have hkvF : kv ∈ s.orders.filter (fun kv => decide (pid ∈ kv.2.publicIds)) :=
        List.mem_filter.2 ⟨hkv, by simpa using hkvpid⟩
      have h2 : (2 : Nat) ≤
          (s.orders.filter (fun kv => decide (pid ∈ kv.2.publicIds))).length :=
        two_le_length_of_mem_ne hkvF hmemF (fun he => hne (congrArg Prod.fst he))
      omega
    · intro hother
      apply length_le_one_of_nodup_all_eq (List.Nodup.filter _ hndOrders)
      intro y hy
      have hy2 := List.mem_filter.1 hy
      have hpidy : pid ∈ y.2.publicIds := by simpa using hy2.2
      have hyk : y.1 = orderId := by
        by_contra hne
        exact hother y hy2.1 hne hpidy
      exact eq_of_keyNodup hkeys hy2.1 hmem hyk
  · intro oidB dB hmemB hneB hpidB
    have hmemBF : (oidB, dB) ∈
        s.orders.filter (fun kv => decide (pid ∈ kv.2.publicIds)) :=
      List.mem_filter.2 ⟨hmemB, by simpa using hpidB⟩
    have hlen2 : 2 ≤ (s.orders.filter (fun kv => decide (pid ∈ kv.2.publicIds))).length :=
      two_le_length_of_mem_ne hmemBF hmemF (fun he => hneB (congrArg Prod.fst he))
    have hsurv : pid ∈ (cleanupOrder s orderId orderData false now).assets := by
      rw [cleanupOrder_assets, mem_objectStoreDelete]
      refine ⟨hasset, ?_⟩
      rw [mem_toDeleteIds]
      rintro ⟨-, hle⟩
      omega
    refine ⟨hsurv, ?_⟩
    intro honly
    rw [cleanupOrder_assets, mem_objectStoreDelete]
    rintro ⟨-, hnotdel⟩
    apply hnotdel
    rw [mem_toDeleteIds]
    refine ⟨hpidB, ?_⟩
    rw [cleanupOrder_orders_delete]
    apply length_le_one_of_nodup_all_eq
      (List.Nodup.filter _ (List.Nodup.filter _ hndOrders))
    intro y hy
    have hy1 := List.mem_filter.1 hy
    have hy2 := List.mem_filter.1 hy1.1
    have hyne : y.1 ≠ orderId := by simpa using hy2.2
    have hypid : pid ∈ y.2.publicIds := by simpa using hy1.2
    have hyB : y.1 = oidB := (honly y hy2.1 hypid).resolve_left hyne
    exact eq_of_keyNodup hkeys hy2.1 hmemB hyB

/-- Witness for C1: with orders `A` and `B` sharing asset `p`, reclaiming
`A` leaves `p` stored and reclaiming `B` afterwards deletes it. -/
theorem cleanupOrder_shared_asset_guard_witness :
    "p" ∈ (cleanupOrder storeAB "A" recActive false 0).assets ∧
    "p" ∉ (cleanupOrder (cleanupOrder storeAB "A" recActive false 0)
            "B" recShared false 0).assets := by
  have h := (cleanupOrder_shared_asset_guard storeAB "A" recActive false 0 "p"
    (by decide) (by decide) (by decide) (by decide)).2 "B" recShared
    (by decide) (by decide) (by decide)
  exact ⟨h.1, h.2 (by decide)⟩

/-! ## Claim C2 — what the sweep actually selects -/

/-- Counterexample to C2 as stated: thirteen hours after its creation, a
COMPLETED order is selected as a reclamation candidate by the sweep, even
though its status is not ACTIVE and even though it is younger than the
24-hour TTL used for `expiresAt`. -/
theorem cleanupCandidates_ignores_status_cex :
    recCompleted.status = "COMPLETED" ∧
    ¬ recCompleted.createdAt ≤ 13 * 60 * 60 * 1000 - TTL_MS ∧
    ("A", recCompleted) ∈ cleanupCandidates storeDone.orders (13 * 60 * 60 * 1000) := by
  decide

/-- Claim C2 as amended: each sweep run selects as candidates exactly the
orders whose `createdAt` is at least twelve hours in the past, with no
condition on the status; this 12-hour threshold is a different constant
from the 24-hour TTL, which `createOrder` uses to set
`expiresAt = createdAt + TTL`. -/
theorem cleanupCandidates_age_only (s : Store) (now : Int) (kv : String × OrderRecord) :
    (kv ∈ cleanupCandidates s.orders now ↔
      kv ∈ s.orders ∧ kv.2.createdAt ≤ now - CLEANUP_AGE_MS) ∧
    CLEANUP_AGE_MS ≠ TTL_MS ∧
    (∀ ps rid amount tp oid code, ∃ r c a,
      createOrder (some ps) rid amount tp now oid code = .created r c a ∧
      r.expiresAt = some (r.createdAt + TTL_MS) ∧ r.createdAt = now) := by
  refine ⟨?_, by decide, ?_⟩
  · simp [cleanupCandidates, List.mem_filter]
  · intro ps rid amount tp oid code
    exact ⟨_, _, _, rfl, rfl, rfl⟩

/-- Witness for C2 (amended): an ACTIVE order created thirteen hours ago
is selected by the candidate predicate. -/
theorem cleanupCandidates_age_only_witness :
    ("A", recActive) ∈ cleanupCandidates storeA.orders (13 * 60 * 60 * 1000) :=
  ((cleanupCandidates_age_only storeA (13 * 60 * 60 * 1000) ("A", recActive)).1).2
    ⟨by decide, by decide⟩

/-! ## Claim C3 — idempotence of reclamation -/

theorem mem_foldl_cleanup_orders (now : Int) (ds : List (String × OrderRecord))
    (st : Store) (kv : String × OrderRecord) :
    kv ∈ (ds.foldl (fun t d => cleanupOrder t d.1 d.2 false now) st).orders ↔
      kv ∈ st.orders ∧ ∀ d ∈ ds, kv.1 ≠ d.1 := by
  induction ds generalizing st with
  | nil => simp
  | cons d rest ih =>
    rw [List.foldl_cons, ih, cleanupOrder_orders_delete]
    simp only [List.mem_filter, decide_eq_true_eq, List.forall_mem_cons]
    tauto

/-- After a sweep, no reclamation candidate is left. -/
theorem cleanupCandidates_performCleanup (s : Store) (now : Int) :
    cleanupCandidates (performCleanup s now).orders now = [] := by
  unfold cleanupCandidates
  rw [List.filter_eq_nil_iff]
  intro kv hkv
  rw [performCleanup, mem_foldl_cleanup_orders] at hkv
  obtain ⟨hmem, hall⟩ := hkv
  simp only [decide_eq_true_eq]
  intro hle
  exact hall kv (List.mem_filter.2 ⟨hmem, by simpa using hle⟩) rfl

/-- Claim C3: running the sweep twice at the same instant changes nothing
the second time (every candidate was already deleted, so the candidate
query of the second run is empty); reclaiming with an already-cleared
asset list deletes nothing; and deleting an already-deleted asset is a
no-op rather than an error. -/
theorem performCleanup_idempotent :
    (∀ (s : Store) (now : Int),
      performCleanup (performCleanup s now) now = performCleanup s now) ∧
    (∀ (s : Store) (orderId : String) (d : OrderRecord) (now : Int),
      (cleanupOrder s orderId { d with publicIds := [] } true now).assets = s.assets) ∧
    (∀ (assets ids : List String),
      objectStoreDelete (objectStoreDelete assets ids) ids = objectStoreDelete assets ids) := by
  refine ⟨?_, ?_, ?_⟩
  · intro s now
    conv_lhs => rw [performCleanup]
    rw [cleanupCandidates_performCleanup]
    rfl
  · intro s orderId d now
    rw [cleanupOrder_assets]
    simp [toDeleteIds, objectStoreDelete]
  · intro assets ids
    simp [objectStoreDelete, List.filter_filter]

/-- A point lookup after the document was deleted finds nothing. -/
theorem dbGet_filter_ne (orders : List (String × OrderRecord)) (orderId : String) :
    dbGet (orders.filter (fun kv => decide (kv.1 ≠ orderId))) orderId = none := by
  unfold dbGet
  have hnone : (orders.filter (fun kv => decide (kv.1 ≠ orderId))).find?
      (fun kv => decide (kv.1 = orderId)) = none := by
    rw [List.find?_eq_none]
    intro kv hkv
    have := (List.mem_filter.1 hkv).2
    simp_all
  rw [hnone]
  rfl

/-! ## Claim C6 — the unit-price table and the worked example -/

/-- Claim C6: for print settings whose files all carry positive page
counts and copy counts, `calculateCost` is the sum over the files of
`unitPrice * pageCount * copies` with unit price 10 for `COLOR` files and
3 otherwise; in particular the worked example prices at
`10*2*1 + 3*3*2 = 38`. -/
theorem calculateCost_unit_price_table :
    (∀ fs : List PrintFile,
      (∀ f ∈ fs, (∃ p, f.pageCount = some p ∧ 0 < p) ∧ (∃ k, f.copies = some k ∧ 0 < k)) →
      calculateCost { files := some fs } =
        (fs.map (fun f => (if f.color = some "COLOR" then 10 else 3)
          * f.pageCount.getD 1 * f.copies.getD 1)).sum) ∧
    calculateCost exampleSettings = 38 := by
  constructor
  · intro fs hfs
    rw [calculateCost_eq_claimedAmount]
    unfold claimedAmount
    simp only
    congr 1
    apply List.map_congr_left
    intro f hf
    obtain ⟨⟨p, hp, hppos⟩, ⟨k, hk, hkpos⟩⟩ := hfs f hf
    have h1 : jsOr1 f.pageCount = f.pageCount.getD 1 := by
      rw [hp]; cases p with
      | zero => omega
      | succ n => rfl
    have h2 : jsOr1 f.copies = f.copies.getD 1 := by
      rw [hk]; cases k with
      | zero => omega
      | succ n => rfl
    rw [h1, h2]
  · decide

/-- Witness for C6: the hypothesis holds of the worked example's files,
and the theorem applied there evaluates both sides to 38. -/
theorem calculateCost_unit_price_table_witness :
    calculateCost { files := some exampleFiles } =
      (exampleFiles.map (fun f => (if f.color = some "COLOR" then 10 else 3)
        * f.pageCount.getD 1 * f.copies.getD 1)).sum :=
  calculateCost_unit_price_table.1 exampleFiles (by decide)

/-! ## Claim C10 — JS defaulting behaviour of `calculateCost` -/

/-- Claim C10: a missing or falsy `pageCount` is billed as one page, a
missing or falsy `copies` as one copy, any `color` other than the exact
string `COLOR` at the monochrome rate 3, and settings without a files
array yield amount 0 rather than an error.  The last conjunct compares
`calculateCost` against `claimedAmount`, the billing rule restated in the
claim's own words. -/
theorem calculateCost_js_defaults :
    (calculateCost { files := none } = 0) ∧
    (∀ (f : PrintFile) (rest : List PrintFile), f.pageCount = none ∨ f.pageCount = some 0 →
      calculateCost { files := some (f :: rest) } =
        calculateCost { files := some ({ f with pageCount := some 1 } :: rest) }) ∧
    (∀ (f : PrintFile) (rest : List PrintFile), f.copies = none ∨ f.copies = some 0 →
      calculateCost { files := some (f :: rest) } =
        calculateCost { files := some ({ f with copies := some 1 } :: rest) }) ∧
    (∀ (f : PrintFile) (rest : List PrintFile), f.color ≠ some "COLOR" →
      calculateCost { files := some (f :: rest) } =
        3 * jsOr1 f.pageCount * jsOr1 f.copies + calculateCost { files := some rest }) ∧
    (∀ ps : PrintSettings, calculateCost ps = claimedAmount ps) := by
  have hcons : ∀ (f : PrintFile) (rest : List PrintFile),
      calculateCost { files := some (f :: rest) } =
        (if f.color = some "COLOR" then 10 else 3) * jsOr1 f.pageCount * jsOr1 f.copies
          + calculateCost { files := some rest } := by
    intro f rest
    rw [calculateCost_eq_claimedAmount, calculateCost_eq_claimedAmount]
    simp [claimedAmount]
  refine ⟨rfl, ?_, ?_, ?_, calculateCost_eq_claimedAmount⟩
  · intro f rest h
    rw [hcons, hcons]
    rcases h with h | h <;> simp [h, jsOr1]
  · intro f rest h
    rw [hcons, hcons]
    rcases h with h | h <;> simp [h, jsOr1]
  · intro f rest h
    rw [hcons, if_neg h]

/-! ## Claim C4 — the guards of `/verify-pickup-code` -/

/-- Store holding the ACTIVE order whose `printStatus` is `PRINTING`. -/
def storePrinting : Store :=
  { orders := [("A", recPrinting)], assets := ["p"] }

/-- Counterexample to C4 as stated: an ACTIVE order whose `printStatus`
is `PRINTING` — an order already printing — is not rejected with
`AlreadyPrintedError`; the handler answers success, because its guard
compares `printStatus` against the exact string `PRINTED` only. -/
theorem verifyPickupCode_printing_not_rejected_cex :
    recPrinting.printStatus = "PRINTING" ∧
    findActiveByCode storePrinting.orders "123456" = some ("A", recPrinting) ∧
    verifyPickupCode storePrinting 0 (some "123456") = .ok "A" ["uA"] := by
  decide

/-- Claim C4 as amended: `/verify-pickup-code` answers `NotFoundError`
when no ACTIVE order holds the code; on the matched order it answers
`AlreadyPrintedError` exactly when `printStatus` is the string `PRINTED`
(an order whose `printStatus` is `PRINTING` passes this guard),
`ExpiredError` exactly when `expiresAt` is set and in the past,
`NoAssetsError` exactly when the file list is empty, and succeeds exactly
when none of these hold — with the guards evaluated in that order. -/
theorem verifyPickupCode_guards (s : Store) (now : Int) (c : String) :
    ((∀ kv ∈ s.orders, ¬(kv.2.pickupCode = some c ∧ kv.2.status = "ACTIVE")) →
      verifyPickupCode s now (some c) = .notFound) ∧
    (∀ oid data, findActiveByCode s.orders c = some (oid, data) →
      (verifyPickupCode s now (some c) = .alreadyPrinted ↔
        data.printStatus = "PRINTED") ∧
      (verifyPickupCode s now (some c) = .expired ↔
        data.printStatus ≠ "PRINTED" ∧ jsExpired data.expiresAt now = true) ∧
      (verifyPickupCode s now (some c) = .noAssets ↔
        data.printStatus ≠ "PRINTED" ∧ jsExpired data.expiresAt now = false ∧
          data.fileUrls = []) ∧
      (verifyPickupCode s now (some c) = .ok oid data.fileUrls ↔
        data.printStatus ≠ "PRINTED" ∧ jsExpired data.expiresAt now = false ∧
          data.fileUrls ≠ [])) := by
  constructor
  · intro h
    have hnone : findActiveByCode s.orders c = none := by
      unfold findActiveByCode
      rw [List.find?_eq_none]
      intro kv hkv
      simpa using h kv hkv
    simp [verifyPickupCode, hnone]
  · intro oid data hfind
    have hv : verifyPickupCode s now (some c) =
        (if data.printStatus = "PRINTED" then VerifyResult.alreadyPrinted
         else if jsExpired data.expiresAt now then VerifyResult.expired
         else if data.fileUrls = [] then VerifyResult.noAssets
         else VerifyResult.ok oid data.fileUrls) := by
      simp only [verifyPickupCode, hfind]
    rw [hv]
    by_cases hp : data.printStatus = "PRINTED"
    · simp [hp]
    · by_cases he : jsExpired data.expiresAt now = true
      · simp [hp, he]
      · rw [Bool.not_eq_true] at he
        by_cases hf : data.fileUrls = []
        · simp [hp, he, hf]
        · simp [hp, he, hf]

/-- Witness for C4 (amended): on the concrete store the guards evaluate
to a success for the printing order. -/
theorem verifyPickupCode_guards_witness :
    verifyPickupCode storePrinting 0 (some "123456") = .ok "A" recPrinting.fileUrls :=
  (((verifyPickupCode_guards storePrinting 0 "123456").2 "A" recPrinting
    (by decide)).2.2.2).2 (by decide)

/-! ## Claim C5 — `/mark-printed` has no state guard -/

/-- Counterexample to C5 as stated: `/mark-printed` on an order whose
status is already COMPLETED answers success (not an error), deletes the
order document and deletes its asset — reclamation runs again. -/
theorem markPrinted_completed_cex :
    recCompleted.status = "COMPLETED" ∧
    (markPrinted storeDone 0 "A").1 = .success ∧
    (markPrinted storeDone 0 "A").2.orders = [] ∧
    (markPrinted storeDone 0 "A").2.assets = [] := by
  decide

/-- Claim C5 as amended: `/mark-printed` applies its update with no guard
on the current status.  On any existing order — an already COMPLETED one
included — it succeeds, re-applies the completion update and triggers
reclamation again, which deletes the order document; the only error it
can answer is `NotFoundError` for a missing document. -/
theorem markPrinted_no_status_guard (s : Store) (now : Int) (orderId : String) :
    (dbGet s.orders orderId = none → markPrinted s now orderId = (.notFound, s)) ∧
    (∀ d, dbGet s.orders orderId = some d →
      (markPrinted s now orderId).1 = .success ∧
      dbGet (markPrinted s now orderId).2.orders orderId = none) := by
  constructor
  · intro h
    unfold markPrinted
    rw [h]
  · intro d h
    have h1 : dbGet (dbUpdate s.orders orderId (fun x => markPrintedPatch x now)) orderId =
        some (markPrintedPatch d now) := by
      rw [dbGet_dbUpdate, h]; rfl
    simp only [markPrinted, h, h1]
    refine ⟨trivial, ?_⟩
    rw [cleanupOrder_orders_delete]
    exact dbGet_filter_ne _ _

/-- Witness for C5 (amended): applied to the completed order `A`. -/
theorem markPrinted_no_status_guard_witness :
    (markPrinted storeDone 0 "A").1 = .success ∧
    dbGet (markPrinted storeDone 0 "A").2.orders "A" = none :=
  (markPrinted_no_status_guard storeDone 0 "A").2 recCompleted (by decide)

/-- A file entry with a falsy page count (used by the C10 witness). -/
def falsyPagesFile : PrintFile :=
  { color := none, pageCount := some 0, copies := none, url := none, publicId := none }

/-- Witness for C10: a file with a falsy page count and a missing colour
is billed exactly like one page. -/
theorem calculateCost_js_defaults_witness :
    calculateCost { files := some [falsyPagesFile] } =
      calculateCost { files := some [{ falsyPagesFile with pageCount := some 1 }] } :=
  calculateCost_js_defaults.2.1 falsyPagesFile [] (Or.inr rfl)

/-! ## Claim C7 — what `createOrder` actually validates -/

/-- Counterexample to C7 as stated: `createOrder` accepts a settings
object with no files array, accepts a file whose page count is 0, and in
the first case still writes an order record to the collection. -/
theorem createOrder_accepts_malformed_cex :
    createOrder (some { files := none }) none 0 0 0 "ORD_1" "123456" ≠ .validationError ∧
    createOrder (some { files := some [falsyPagesFile] }) none 0 0 0 "ORD_1" "123456"
      ≠ .validationError ∧
    (createOrderDb { orders := [], assets := [] } (some { files := none })
      none 0 0 0 "ORD_1" "123456").2.orders.length = 1 := by
  decide

/-- Claim C7 as amended: `createOrder` fails with its validation error
exactly when `printSettings` is absent (or not an object), and then no
record is written; any present settings object — no files array and
non-positive page counts included — is accepted, an order record is
written, and the amount falls back to `calculateCost`. -/
theorem createOrder_validation_only_object (s : Store) (rid : Option String)
    (amount tp : Nat) (now : Int) (oid code : String) :
    (createOrder none rid amount tp now oid code = .validationError) ∧
    (createOrderDb s none rid amount tp now oid code = (.validationError, s)) ∧
    (∀ ps, ∃ r c a, createOrder (some ps) rid amount tp now oid code = .created r c a ∧
      r.amount = (if amount = 0 then calculateCost ps else amount)) ∧
    (∀ ps, (createOrderDb s (some ps) rid amount tp now oid code).2.orders.length =
      s.orders.length + 1) := by
  refine ⟨rfl, rfl, ?_, ?_⟩
  · intro ps
    exact ⟨_, _, _, rfl, rfl⟩
  · intro ps
    simp [createOrderDb, createOrder]

/-! ## Claim C8 — the pickup-code invariant -/

/-- Unfolding of `/mark-printed` on an existing order. -/
theorem markPrinted_eq_some (s : Store) (now : Int) (orderId : String) (d : OrderRecord)
    (h : dbGet s.orders orderId = some d) :
    markPrinted s now orderId =
      (.success, cleanupOrder
        { s with orders := dbUpdate s.orders orderId (fun x => markPrintedPatch x now) }
        orderId (markPrintedPatch d now) false now) := by
  have h1 : dbGet (dbUpdate s.orders orderId (fun x => markPrintedPatch x now)) orderId =
      some (markPrintedPatch d now) := by
    rw [dbGet_dbUpdate, h]; rfl
  simp only [markPrinted, h, h1]

/-- The `/mark-printed` update of the printer-key iteration
(`src/index.js` lines 635–639): set `printStatus` to `PRINTED`, record
`printedAt` and revoke the pickup code — the order's `status` field is
not touched by this handler. -/
def printerKeyMarkPrintedPatch (d : OrderRecord) (now : Int) : OrderRecord :=
  { d with printStatus := "PRINTED", printedAt := some now, pickupCode := none }

/-- Counterexample to C8 as stated: the printer-key `/mark-printed`
update revokes the pickup code of an ACTIVE order while leaving its
status ACTIVE, so the resulting order violates the invariant that
`pickupCode` is non-null exactly on ACTIVE or PRINTING orders. -/
theorem pickupCode_invariant_not_preserved_cex :
    pickupCodeInv recActive ∧
    (printerKeyMarkPrintedPatch recActive 0).status = "ACTIVE" ∧
    (printerKeyMarkPrintedPatch recActive 0).pickupCode = none ∧
    ¬ pickupCodeInv (printerKeyMarkPrintedPatch recActive 0) := by
  decide

/-- Claim C8 as amended: the invariant that `pickupCode` is non-null
exactly on orders whose status is `ACTIVE` or `PRINTING` is established
or preserved by creation (both payment modes), the payment activation
update, both status-setting `/mark-printed` updates, the archive
transition to `EXPIRED`, the metadata-clearing reclamation update, and
the store-level `/mark-printed` and sweep operations — but it is not
preserved by every operation: the printer-key `/mark-printed` update
revokes the pickup code without touching `status`, so it breaks the
invariant on every ACTIVE or PRINTING order. -/
theorem pickupCode_invariant_preservation_scope :
    (∀ ps rid amount tp now oid code r c a,
      createOrder (some ps) rid amount tp now oid code = .created r c a →
      pickupCodeInv r) ∧
    (∀ d u pid code, pickupCodeInv (activatePaymentPatch d u pid code)) ∧
    (∀ d now, pickupCodeInv (markPrintedPatch d now)) ∧
    (∀ d now, pickupCodeInv (markPrintedPatchLegacy d now)) ∧
    (∀ d now, pickupCodeInv (expireArchivePatch d now)) ∧
    (∀ d now, pickupCodeInv d → pickupCodeInv (clearFilesPatch d now)) ∧
    (∀ s now orderId, (∀ kv ∈ s.orders, pickupCodeInv kv.2) →
      ∀ kv ∈ (markPrinted s now orderId).2.orders, pickupCodeInv kv.2) ∧
    (∀ s now, (∀ kv ∈ s.orders, pickupCodeInv kv.2) →
      ∀ kv ∈ (performCleanup s now).orders, pickupCodeInv kv.2) ∧
    (∀ d now, d.status = "ACTIVE" ∨ d.status = "PRINTING" →
      ¬ pickupCodeInv (printerKeyMarkPrintedPatch d now)) := by
  refine ⟨?_, ?_, ?_, ?_, ?_, ?_, ?_, ?_, ?_⟩
  · intro ps rid amount tp now oid code r c a h
    simp only [createOrder] at h
    injection h with h1 h2 h3
    subst h1
    cases rid <;> simp [pickupCodeInv]
  · intro d u pid code
    simp [pickupCodeInv, activatePaymentPatch]
  · intro d now
    simp [pickupCodeInv, markPrintedPatch]
  · intro d now
    simp [pickupCodeInv, markPrintedPatchLegacy]
  · intro d now
    simp [pickupCodeInv, expireArchivePatch]
  · intro d now h
    simpa [pickupCodeInv, clearFilesPatch] using h
  · intro s now orderId hinv kv hkv
    have hstep : ∀ kw ∈ dbUpdate s.orders orderId (fun x => markPrintedPatch x now),
        pickupCodeInv kw.2 := by
      intro kw hkw
      obtain ⟨kx, hkx, heq⟩ := mem_dbUpdate.1 hkw
      by_cases hk : kx.1 = orderId
      · rw [heq, if_pos hk]
        simp [pickupCodeInv, markPrintedPatch]
      · rw [heq, if_neg hk]
        exact hinv kx hkx
    cases hget : dbGet s.orders orderId with
    | none =>
      rw [(markPrinted_no_status_guard s now orderId).1 hget] at hkv
      exact hinv kv hkv
    | some d =>
      rw [markPrinted_eq_some s now orderId d hget] at hkv
      rw [cleanupOrder_orders_delete] at hkv
      exact hstep kv (List.mem_filter.1 hkv).1
  · intro s now hinv kv hkv
    rw [performCleanup, mem_foldl_cleanup_orders] at hkv
    exact hinv kv hkv.1
  · intro d now h hinv
    exact (hinv.mpr h) rfl

/-- Witness for C8 (amended): the order `B` surviving `/mark-printed` of
`A` still satisfies the invariant, while the printer-key update applied
to the ACTIVE order `A` breaks it. -/
theorem pickupCode_invariant_preservation_scope_witness :
    pickupCodeInv recShared ∧
    ¬ pickupCodeInv (printerKeyMarkPrintedPatch recActive 0) := by
  constructor
  · exact pickupCode_invariant_preservation_scope.2.2.2.2.2.2.1 storeAB 0 "A"
      (by decide) ("B", recShared) (by decide)
  · exact pickupCode_invariant_preservation_scope.2.2.2.2.2.2.2.2 recActive 0
      (Or.inl (by decide))

/-! ## Claim C9 — no at-most-once redemption -/

/-- The lookup by code is unaffected by a `printStatus`-only update. -/
theorem find?_code_dbUpdate (orders : List (String × OrderRecord)) (oid code : String) :
    (dbUpdate orders oid lockPatch).find?
        (fun kv => decide (kv.2.pickupCode = some code)) =
      (orders.find? (fun kv => decide (kv.2.pickupCode = some code))).map
        (fun kv => if kv.1 = oid then (kv.1, lockPatch kv.2) else kv) := by
  induction orders with
  | nil => rfl
  | cons kv rest ih =>
    by_cases h : kv.2.pickupCode = some code
    · by_cases hk : kv.1 = oid <;>
        simp [dbUpdate, List.find?_cons, h, hk, lockPatch]
    · by_cases hk : kv.1 = oid <;>
        simpa [dbUpdate, List.find?_cons, h, hk, lockPatch] using ih

/-- Counterexample to C9: two successive redemptions of the same valid
code both succeed — under both embedded handler variants — so concurrent
redemptions have no single winner and the losers never observe
`AlreadyPrintedError`/`InvalidStateError`. -/
theorem redeem_twice_both_succeed_cex :
    (verifyPickupCodeLock storeA "123456").1 = .ok "A" ∧
    (verifyPickupCodeLock (verifyPickupCodeLock storeA "123456").2 "123456").1 = .ok "A" ∧
    (redeemPickupCode storeA 0 (some "123456")).1 = .ok "A" ["uA"] ∧
    (redeemPickupCode (redeemPickupCode storeA 0 (some "123456")).2 0 (some "123456")).1 =
      .ok "A" ["uA"] := by
  decide

/-- Claim C9 as amended: the transactional `/verify-pickup-code` rejects
only a falsy `printStatus`; any order found by code with a truthy
`printStatus` is authorised, the update sets `printStatus` to `PRINTING`
without ever touching the order's `status`, and an immediate second
redemption of the same code is authorised again — there is no
at-most-once redemption guarantee. -/
theorem verifyPickupCodeLock_allows_reprint (s : Store) (code oid : String)
    (data : OrderRecord)
    (hfind : s.orders.find? (fun kv => decide (kv.2.pickupCode = some code)) = some (oid, data))
    (hstatus : data.printStatus ≠ "") :
    (verifyPickupCodeLock s code).1 = .ok data.orderId ∧
    (verifyPickupCodeLock (verifyPickupCodeLock s code).2 code).1 = .ok data.orderId ∧
    (verifyPickupCodeLock s code).2.orders.map (fun kv => kv.2.status) =
      s.orders.map (fun kv => kv.2.status) := by
  have h1 : verifyPickupCodeLock s code =
      (.ok data.orderId, { s with orders := dbUpdate s.orders oid lockPatch }) := by
    simp only [verifyPickupCodeLock, hfind, if_neg hstatus]
  have h2 : (dbUpdate s.orders oid lockPatch).find?
      (fun kv => decide (kv.2.pickupCode = some code)) =
      some (oid, lockPatch data) := by
    rw [find?_code_dbUpdate, hfind]
    simp
  refine ⟨by rw [h1], ?_, ?_⟩
  · rw [h1]
    simp only [verifyPickupCodeLock, h2]
    rw [if_neg (by simp [lockPatch])]
    rfl
  · rw [h1]
    show (dbUpdate s.orders oid lockPatch).map (fun kv => kv.2.status) =
      s.orders.map (fun kv => kv.2.status)
    unfold dbUpdate
    rw [List.map_map]
    apply List.map_congr_left
    intro kv hkv
    by_cases h : kv.1 = oid <;> simp [h, lockPatch]

/-- Witness for C9 (amended): applied to the concrete ACTIVE order. -/
theorem verifyPickupCodeLock_allows_reprint_witness :
    (verifyPickupCodeLock storeA "123456").1 = .ok "A" ∧
    (verifyPickupCodeLock (verifyPickupCodeLock storeA "123456").2 "123456").1 = .ok "A" := by
  have h := verifyPickupCodeLock_allows_reprint storeA "123456" "A" recActive
    (by decide) (by decide)
  exact ⟨h.1, h.2.1⟩

end PrinterBackend
